import Mathlib

set_option maxRecDepth 100000

/-!
Verification development for the `keepa_crawler` repository
(`src/src/client.py`, class `KeepaClient`).

The Python source is shallowly embedded: pure helpers become Lean functions,
the mutex-guarded client state (`products`, `pending_events`) becomes an
explicit `ClientState` record transformed by one Lean function per code
region, Python exceptions become the inductive `PyErr`, raising becomes
returning `Except`/`Option` values, and Python `dict`s become ordered
association lists (insertion order preserved, unique keys), exactly the
observable behaviour of a CPython dict.

Instants are represented as integer seconds since the Unix epoch
1970-01-01T00:00:00Z (the value `datetime.datetime.utcfromtimestamp` is
applied to); Python float arithmetic on these values is exact for all
magnitudes below 2^53, which covers every timestamp considered here.
-/

/-- Python exceptions raised by `client.py`, by kind, each carrying the
message it is constructed with.  `keepaConnection`, `keepaTimeout` and
`keepaAPI` are the classes defined at lines 24-33 of `client.py`;
`valueError`, `typeErr` and `keyErr` are the Python builtins the code
raises or lets escape (`ValueError` at line 226, `TypeError`/`KeyError`
from the csv loop at lines 276-288).  `keyErr` carries the offending
integer key, as Python `KeyError(i)` does. -/
inductive PyErr where
  | keepaConnection (msg : String)
  | keepaTimeout (msg : String)
  | keepaAPI (msg : String)
  | valueError (msg : String)
  | typeErr (msg : String)
  | keyErr (key : Nat)
deriving DecidableEq

/-- True exactly for `KeepaConnectionError` (line 24). -/
def PyErr.isConn : PyErr → Bool
  | PyErr.keepaConnection _ => true
  | _ => false

/-- True exactly for `KeepaAPIError` (line 32), the code's analog of the
spec's ProtocolError. -/
def PyErr.isAPI : PyErr → Bool
  | PyErr.keepaAPI _ => true
  | _ => false

/-- A JSON value appearing inside a csv entry: an integer, or any
non-integer JSON value (`other`).  Multiplying a non-number by 60 and
adding the float epoch, as `keepa_to_datetime` does at line 338, raises
`TypeError`; integers are the values the protocol actually carries. -/
inductive JVal where
  | int (n : Int)
  | other
deriving DecidableEq

/-- Whether a csv element is an integer timestamp `keepa_to_datetime`
accepts. -/
def JVal.isInt : JVal → Bool
  | JVal.int _ => true
  | JVal.other => false

/-- One element of a product's `csv` array (line 277): JSON `null`, a JSON
array of values, or any other non-list, non-null JSON value (number, bool,
object), whose slicing `csv_entry[::2]` raises `TypeError`. -/
inductive CsvEntry where
  | null
  | arr (l : List JVal)
  | other
deriving DecidableEq

instance {ε α : Type} [DecidableEq ε] [DecidableEq α] : DecidableEq (Except ε α) :=
  fun x y =>
    match x, y with
    | Except.ok a, Except.ok b =>
      if h : a = b then isTrue (by rw [h]) else isFalse (fun c => h (Except.ok.inj c))
    | Except.error a, Except.error b =>
      if h : a = b then isTrue (by rw [h]) else isFalse (fun c => h (Except.error.inj c))
    | Except.ok _, Except.error _ => isFalse (fun c => Except.noConfusion c)
    | Except.error _, Except.ok _ => isFalse (fun c => Except.noConfusion c)

/-- Python slice `l[::2]` (line 285): elements at even indices. -/
def evens {α : Type} : List α → List α
  | [] => []
  | [a] => [a]
  | a :: _ :: rest => a :: evens rest

/-- Python slice `l[1::2]` (line 286): elements at odd indices. -/
def odds {α : Type} : List α → List α
  | [] => []
  | [_] => []
  | _ :: b :: rest => b :: odds rest

/-! ### Calendar arithmetic

`daysFromCivil` is the standard civil-from-days algorithm; it lets the fixed
instants named by the spec (2011-01-01T00:00:00Z and friends) be written as
dates and evaluated to Unix seconds inside Lean. -/

/-- Days between 1970-01-01 and the civil date y-m-d (proleptic Gregorian). -/
def daysFromCivil (y : Int) (m d : Nat) : Int :=
  let y' : Int := if m ≤ 2 then y - 1 else y
  let era : Int := (if 0 ≤ y' then y' else y' - 399) / 400
  let yoe : Int := y' - era * 400
  let mp : Nat := (m + 9) % 12
  let doy : Nat := (153 * mp + 2) / 5 + d - 1
  let doe : Int := yoe * 365 + yoe / 4 - yoe / 100 + doy
  era * 146097 + doe - 719468

/-- Unix seconds of the UTC instant y-m-d hh:mi:ss. -/
def civilSecs (y : Int) (m d hh mi ss : Nat) : Int :=
  daysFromCivil y m d * 86400 + hh * 3600 + mi * 60 + ss

/-- `KeepaClient.KEEPA_EPOCH` (line 57):
`datetime.datetime(2011, 1, 1).timestamp()`.  The datetime is naive, so
CPython interprets it in the process's local timezone: with a local zone
`tzOffset` seconds east of UTC, the resulting Unix timestamp is the UTC
seconds of 2011-01-01T00:00:00 minus that offset.  The timezone enters the
embedding as the explicit parameter `tzOffset` (0 when the process runs
in UTC). -/
def KEEPA_EPOCH (tzOffset : Int) : Int :=
  civilSecs 2011 1 1 0 0 0 - tzOffset

/-- `KeepaClient.keepa_to_datetime` (lines 332-339):
`utcfromtimestamp(minutes * 60 + KEEPA_EPOCH)`.  The returned naive-UTC
datetime is represented by its Unix seconds. -/
def keepa_to_datetime (tzOffset : Int) (keepa_timestamp_minutes : Int) : Int :=
  keepa_timestamp_minutes * 60 + KEEPA_EPOCH tzOffset

/-- `KeepaClient.TYPES` (lines 60-71), transcribed in order. -/
def TYPES : List String :=
  ["AMAZON", "NEW", "USED", "SALES", "LISTPRICE", "COLLECTIBLE",
   "REFURBISHED", "NEW_FBM_SHIPPING", "LIGHTNING_DEAL", "WAREHOUSE",
   "NEW_FBA", "COUNT_NEW", "COUNT_USED", "COUNT_REFURBISHED",
   "COUNT_COLLECTIBLE", "EXTRA_INFO_UPDATES", "RATING", "COUNT_REVIEWS",
   "BUY_BOX_SHIPPING", "USED_NEW_SHIPPING", "USED_VERY_GOOD_SHIPPING",
   "USED_GOOD_SHIPPING", "USED_ACCEPTABLE_SHIPPING",
   "COLLECTIBLE_NEW_SHIPPING", "COLLECTIBLE_VERY_GOOD_SHIPPING",
   "COLLECTIBLE_GOOD_SHIPPING", "COLLECTIBLE_ACCEPTABLE_SHIPPING",
   "REFURBISHED_SHIPPING", "EBAY_NEW_SHIPPING", "EBAY_USED_SHIPPING",
   "TRADE_IN", "RENT", "BUY_BOX_USED_SHIPPING", "PRIME_EXCL"]

/-- Price history of one type: (instant, raw value) pairs.  The timestamp
is converted by `keepa_to_datetime`; the value is stored untouched by the
comprehension at lines 282-288, so it stays a raw JSON value. -/
abbrev TimeSeries : Type := List (Int × JVal)

/-- The decoded `price_data` dict (line 273): type name to series, in
insertion order.  Type names are pairwise distinct, so the ordered list is
exactly the dict. -/
abbrev PriceData : Type := List (String × List (Int × JVal))

/-- The comprehension at lines 282-288: each `(ts, price)` pair from
`zip(csv_entry[::2], csv_entry[1::2])` becomes
`(keepa_to_datetime(ts), price)`; a non-integer timestamp raises
`TypeError` inside `keepa_to_datetime` (string-times-int concatenation or
unsupported operand). -/
def convPairs (tzOffset : Int) : List (JVal × JVal) → Except PyErr (List (Int × JVal))
  | [] => Except.ok []
  | (ts, price) :: rest =>
    match ts with
    | JVal.int n =>
      match convPairs tzOffset rest with
      | Except.ok r => Except.ok ((keepa_to_datetime tzOffset n, price) :: r)
      | Except.error e => Except.error e
    | JVal.other => Except.error (PyErr.typeErr "unsupported operand type")

/-- The loop body of lines 276-288 from index `i` on: `INDEX_TO_TYPE[i]`
raises `KeyError(i)` past the end of `TYPES`; a `null` entry yields an
empty series; an array entry is paired up by `convPairs`; a non-list entry
raises `TypeError` when sliced.  The first raised exception aborts the
loop, discarding the partially built dict, exactly as the Python `try`
at line 276 observes it. -/
def decodeCsvFrom (tzOffset : Int) : Nat → List CsvEntry → Except PyErr PriceData
  | _, [] => Except.ok []
  | i, e :: rest =>
    match TYPES.get? i with
    | none => Except.error (PyErr.keyErr i)
    | some ty =>
      match e with
      | CsvEntry.null =>
        match decodeCsvFrom tzOffset (i + 1) rest with
        | Except.ok r => Except.ok ((ty, []) :: r)
        | Except.error er => Except.error er
      | CsvEntry.arr l =>
        match convPairs tzOffset (List.zip (evens l) (odds l)) with
        | Except.error er => Except.error er
        | Except.ok pairs =>
          match decodeCsvFrom tzOffset (i + 1) rest with
          | Except.ok r => Except.ok ((ty, pairs) :: r)
          | Except.error er => Except.error er
      | CsvEntry.other => Except.error (PyErr.typeErr "object is not subscriptable")

/-- Decoding the whole `csv` array of one product (lines 276-288). -/
def decodeCsv (tzOffset : Int) (csv : List CsvEntry) : Except PyErr PriceData :=
  decodeCsvFrom tzOffset 0 csv

example : TYPES.length = 34 := by decide
example : civilSecs 2011 1 1 0 0 0 = 1293840000 := by decide
example : keepa_to_datetime 0 1440 = civilSecs 2011 1 2 0 0 0 := by decide
example :
    decodeCsv 0 [CsvEntry.arr [JVal.int 0, JVal.int 1999]]
      = Except.ok [("AMAZON", [(civilSecs 2011 1 1 0 0 0, JVal.int 1999)])] := by decide

/-! ### Python dict as ordered association list

CPython dicts preserve insertion order; `d[k] = v` replaces in place when
`k` is present and appends otherwise; `del d[k]` / `d.pop(k)` removes the
entry.  Keys are unique in any dict the code builds. -/

/-- Python `d.get(k)` / `k in d` membership plus access. -/
def lookupKey {α : Type} : List (String × α) → String → Option α
  | [], _ => none
  | (k', v) :: rest, k => if k' = k then some v else lookupKey rest k

/-- Python `del d[k]` / `d.pop(k, None)`: drop the entry for `k`. -/
def eraseKey {α : Type} : List (String × α) → String → List (String × α)
  | [], _ => []
  | (k', v) :: rest, k => if k' = k then rest else (k', v) :: eraseKey rest k

/-- Python `d[k] = v`: replace in place, else append at the end. -/
def setKey {α : Type} : List (String × α) → String → α → List (String × α)
  | [], k, v => [(k, v)]
  | (k', v') :: rest, k, v =>
    if k' = k then (k, v) :: rest else (k', v') :: setKey rest k v

/-! ### Client state and the operations of `get_historical_prices`,
`_reconnect` and `_on_message` -/

/-- One value of `self.pending_events` (line 229):
`{'event': threading.Event(), 'error': None}`.  The event's set/unset
state is a boolean. -/
structure PendingEntry where
  event : Bool
  error : Option PyErr
deriving DecidableEq

/-- The mutable client state the claims observe: `self._running`
(line 101, as a boolean flag), whether `self.ws` is non-None (line 96),
`self.products` (line 97) and `self.pending_events` (line 98). -/
structure ClientState where
  running : Bool
  wsSome : Bool
  products : List (String × PriceData)
  pending : List (String × PendingEntry)
deriving DecidableEq

/-- Lines 217-229 of `get_historical_prices`: the connection check
(line 217, `if not self._running.is_set() or not self.ws`), then — after
building and compressing the request locally at lines 220-222, which does
not touch client state — the locked duplicate check and registration
(lines 224-229).  Returns the post-state and the exception raised, if
any; an exception leaves the state exactly as it was. -/
def ghpCheckAndRegister (st : ClientState) (asin : String) :
    ClientState × Option PyErr :=
  if st.running = false ∨ st.wsSome = false then
    (st, some (PyErr.keepaConnection "Not connected to WebSocket server"))
  else if (lookupKey st.pending asin).isSome then
    (st, some (PyErr.valueError ("Request already pending for ASIN: " ++ asin)))
  else
    ({ st with pending := st.pending ++ [(asin, ⟨false, none⟩)] }, none)

/-- Lines 234-237: the `except` branch of the send — under the lock the
key is deleted and `KeepaConnectionError` is raised. -/
def ghpSendFailed (st : ClientState) (asin : String) : ClientState × PyErr :=
  ({ st with pending := eraseKey st.pending asin },
   PyErr.keepaConnection "Failed to send request")

/-- Lines 239-245: `event.wait` timed out — under the lock the key is
deleted if still present (deleting an absent key is the identity, which
is exactly what the `if asin in self.pending_events` guard achieves) and
`KeepaTimeoutError` is raised.  The Python message also interpolates the
timeout figure; the model keeps the ASIN part. -/
def ghpTimeout (st : ClientState) (asin : String) : ClientState × PyErr :=
  ({ st with pending := eraseKey st.pending asin },
   PyErr.keepaTimeout ("No response for ASIN: " ++ asin))

/-- Lines 247-259: the completion path after `event.wait` returned true.
Under the lock both `pending_events[asin]` and `products[asin]` are
popped; a stored error is re-raised; `if not product_data` is Python
truthiness, so both a missing and an empty product dict raise
`KeepaAPIError`. -/
def ghpResult (st : ClientState) (asin : String) : Except PyErr PriceData :=
  let pe := lookupKey st.pending asin
  let pd := lookupKey st.products asin
  let emptyErr : PyErr :=
    PyErr.keepaAPI ("Empty product data received for ASIN: " ++ asin)
  let fromProduct : Except PyErr PriceData :=
    match pd with
    | none => Except.error emptyErr
    | some d => if d = [] then Except.error emptyErr else Except.ok d
  match pe with
  | some entry =>
    match entry.error with
    | some e => Except.error e
    | none => fromProduct
  | none => fromProduct

/-- The pair of post-state and outcome of the completion path: whatever
branch of lines 251-259 runs, both keys have already been popped under
the lock at lines 247-249. -/
def ghpComplete (st : ClientState) (asin : String) :
    ClientState × Except PyErr PriceData :=
  ({ st with pending := eraseKey st.pending asin,
             products := eraseKey st.products asin },
   ghpResult st asin)

/-- Lines 157-161 of `_reconnect`: under the lock, clear `products`, set
every pending entry's event, clear `pending_events`.  No error is stored
in any entry before its event is set.  Returns the post-state together
with the keys whose waiters were just signalled. -/
def reconnectClear (st : ClientState) : ClientState × List String :=
  ({ st with products := [], pending := [] }, st.pending.map Prod.fst)

/-- One inbound product object (line 271): its `asin` and `csv` fields. -/
structure KProduct where
  asin : String
  csv : List CsvEntry
deriving DecidableEq

/-- A decompressed, JSON-parsed inbound frame: either it lacks a
`products` field (line 267) or it carries a product list. -/
inductive WsData where
  | noProducts
  | products (l : List KProduct)
deriving DecidableEq

/-- Lines 261-305 of `_on_message`, from the parsed JSON on: a frame
without `products` is ignored; `data['products'][0]` on an empty list
raises `IndexError`, which the outer handler at line 304 logs and drops;
otherwise the csv is decoded (lines 276-288, inner `try`), and under the
lock (lines 294-302) the pending entry for the asin — when there is one —
receives either the raised exception in its error slot or the decoded
data in `products`, and its event is set.  With no pending entry for the
asin, nothing at all is stored.  Every branch returns a state: the
receive loop never propagates the failure. -/
def onMessageParsed (tzOffset : Int) (st : ClientState) (data : WsData) :
    ClientState :=
  match data with
  | WsData.noProducts => st
  | WsData.products [] => st
  | WsData.products (p :: _) =>
    match lookupKey st.pending p.asin with
    | none => st
    | some entry =>
      match decodeCsv tzOffset p.csv with
      | Except.error e =>
        { st with pending :=
            setKey st.pending p.asin { entry with event := true, error := some e } }
      | Except.ok priceData =>
        { st with products := setKey st.products p.asin priceData,
                  pending := setKey st.pending p.asin { entry with event := true } }

example :
    onMessageParsed 0 ⟨true, true, [], [("B0002", ⟨false, none⟩)]⟩
        (WsData.products [⟨"B0002", [CsvEntry.arr [JVal.int 0, JVal.int 1999]]⟩])
      = ⟨true, true,
         [("B0002", [("AMAZON", [(1293840000, JVal.int 1999)])])],
         [("B0002", ⟨true, none⟩)]⟩ := by decide

/-! ### The frame codec: `_compress` and `_decompress`

`_compress` (lines 341-344) calls
`zlib.compress(message.encode(), level=zlib.Z_BEST_COMPRESSION)`, which
emits a stream in the zlib format of RFC 1950: the two header bytes
CMF = 0x78 (deflate, 32K window) and FLG = 0xDA (FLEVEL = 3 at maximum
compression, check bits making the 16-bit header divisible by 31), a
deflate body (RFC 1951), and a big-endian Adler-32 trailer over the
uncompressed bytes.  The header and trailer are fixed by the format; the
deflate body is modelled as a single final fixed-Huffman block of
literals, which is a valid deflate encoding of any byte sequence and is
byte-for-byte what zlib emits for the empty input.

`_decompress` (lines 346-349) calls
`zlib.decompress(data, wbits=-zlib.MAX_WBITS)`: a raw inflate of the
whole input with no zlib wrapper, embedded below as a full RFC 1951
decoder (`rawInflate`) over byte lists; `None` stands for `zlib.error`.
Strings are identified with their UTF-8 byte sequences (`str.encode` /
`bytes.decode`, mutually inverse), so both codec ends are functions on
byte lists. -/

/-- A deflate bit reader: remaining bytes, plus the bit buffer of the
partially consumed current byte.  Bits are delivered least significant
first, per RFC 1951. -/
structure BitIn where
  bytes : List Nat
  acc : Nat
  nbits : Nat
deriving DecidableEq

/-- Read one bit; fails on exhausted input. -/
def readBit (s : BitIn) : Option (Nat × BitIn) :=
  if s.nbits = 0 then
    match s.bytes with
    | [] => none
    | b :: rest => some (b % 2, ⟨rest, b / 2, 7⟩)
  else some (s.acc % 2, ⟨s.bytes, s.acc / 2, s.nbits - 1⟩)

/-- Read `n` bits, least significant first. -/
def readBits : Nat → BitIn → Option (Nat × BitIn)
  | 0, s => some (0, s)
  | n + 1, s => do
    let (b, s) ← readBit s
    let (v, s) ← readBits n s
    some (b + 2 * v, s)

/-- A stored (uncompressed) deflate block, RFC 1951 section 3.2.4: skip to
the byte boundary, read LEN and its one's complement NLEN, then copy LEN
literal bytes.  A complement mismatch is zlib's
"invalid stored block lengths" error. -/
def storedBlock (s : BitIn) (out : List Nat) : Option (BitIn × List Nat) :=
  match s.bytes with
  | b0 :: b1 :: b2 :: b3 :: rest =>
    let len := b0 + 256 * b1
    let nlen := b2 + 256 * b3
    if len + nlen = 65535 ∧ len ≤ rest.length then
      some (⟨rest.drop len, 0, 0⟩, out ++ rest.take len)
    else none
  | _ => none

/-- Number of symbols assigned Huffman code length `len`. -/
def countByLen (lens : List Nat) (len : Nat) : Nat :=
  (lens.filter (fun l => l == len)).length

/-- Symbols of code length `len`, in increasing symbol order — one
segment of the canonical-Huffman symbol table. -/
def symsOfLen (lens : List Nat) (len : Nat) : List Nat :=
  (List.range lens.length).filter (fun sym => lens.get? sym == some len)

/-- Canonical Huffman decoding of one symbol, walking code lengths 1..15:
read a bit into the low end of the running code (codes are packed most
significant bit first), and stop once the code falls inside the range of
codes of the current length.  This is the classical counts-and-offsets
decode used by zlib and puff. -/
def decodeSymGo (lens : List Nat) : Nat → Nat → Nat → Nat → BitIn →
    Option (Nat × BitIn)
  | 0, _, _, _, _ => none
  | fuel + 1, len, code, first, s => do
    let (b, s) ← readBit s
    let code := code + b
    let count := countByLen lens len
    if code < first + count then
      match (symsOfLen lens len).get? (code - first) with
      | some sym => some (sym, s)
      | none => none
    else
      decodeSymGo lens fuel (len + 1) (2 * code) (2 * (first + count)) s

/-- Decode one Huffman symbol for the code-length assignment `lens`. -/
def decodeSym (lens : List Nat) (s : BitIn) : Option (Nat × BitIn) :=
  decodeSymGo lens 15 1 0 0 s

/-- Fixed literal/length code lengths, RFC 1951 section 3.2.6. -/
def fixedLitLens : List Nat :=
  List.replicate 144 8 ++ List.replicate 112 9 ++
    List.replicate 24 7 ++ List.replicate 8 8

/-- Fixed distance code lengths: thirty 5-bit codes. -/
def fixedDistLens : List Nat := List.replicate 30 5

/-- Extra bits of the k-th length symbol (symbol 257 + k): the first
eight lengths and the last (258) carry none, then the count steps up
every fourth symbol — the structure of the RFC 1951 length table. -/
def lengthExtraOf (k : Nat) : Nat :=
  if k < 8 ∨ k = 28 then 0 else k / 4 - 1

/-- Extra bits for length symbols 257..285. -/
def lengthExtra : List Nat := (List.range 29).map lengthExtraOf

/-- Base match lengths for length symbols 257..285: each range starts
where the previous one (of width 2^extra) ended, from 3, except the
final symbol which denotes exactly 258. -/
def lengthBase : List Nat :=
  (List.range 29).map (fun k =>
    if k = 28 then 258
    else 3 + ((List.range k).map (fun j => 2 ^ lengthExtraOf j)).sum)

/-- Extra bits of the k-th distance symbol: none for the first four,
then stepping up every other symbol. -/
def distExtraOf (k : Nat) : Nat :=
  if k < 4 then 0 else k / 2 - 1

/-- Extra bits for distance symbols 0..29. -/
def distExtra : List Nat := (List.range 30).map distExtraOf

/-- Base distances for distance symbols 0..29: consecutive ranges of
width 2^extra starting from 1. -/
def distBase : List Nat :=
  (List.range 30).map (fun k =>
    1 + ((List.range k).map (fun j => 2 ^ distExtraOf j)).sum)

example : lengthExtra.reverse
    = [0, 5, 5, 5, 5, 4, 4, 4, 4, 3, 3, 3, 3, 2, 2, 2, 2, 1, 1, 1, 1,
       0, 0, 0, 0, 0, 0, 0, 0] := by decide
example : lengthBase.reverse
    = [258, 227, 195, 163, 131, 115, 99, 83, 67, 59, 51, 43, 35, 31, 27,
       23, 19, 17, 15, 13, 11, 10, 9, 8, 7, 6, 5, 4, 3] := by decide
example : distExtra.reverse
    = [13, 13, 12, 12, 11, 11, 10, 10, 9, 9, 8, 8, 7, 7, 6, 6, 5, 5, 4,
       4, 3, 3, 2, 2, 1, 1, 0, 0, 0, 0] := by decide
example : distBase.reverse
    = [24577, 16385, 12289, 8193, 6145, 4097, 3073, 2049, 1537, 1025,
       769, 513, 385, 257, 193, 129, 97, 65, 49, 33, 25, 17, 13, 9, 7,
       5, 4, 3, 2, 1] := by decide

/-- LZ77 back-copy: append `n` bytes starting `dist` back from the end of
the output, one at a time, so overlapping copies replicate. -/
def lzCopy (out : List Nat) (dist : Nat) : Nat → List Nat
  | 0 => out
  | n + 1 =>
    match out.get? (out.length - dist) with
    | some b => lzCopy (out ++ [b]) dist n
    | none => out

/-- Decode the symbol stream of one Huffman-coded block (RFC 1951 section
3.2.3): literals are emitted, symbol 256 ends the block, and length
symbols are followed by extra bits, a distance symbol and its extra bits,
then an LZ77 copy.  Symbols 286/287 and distances past the start of the
output are errors. -/
def inflateCodes (litLens distLens : List Nat) :
    Nat → BitIn → List Nat → Option (BitIn × List Nat)
  | 0, _, _ => none
  | fuel + 1, s, out => do
    let (sym, s) ← decodeSym litLens s
    if sym < 256 then inflateCodes litLens distLens fuel s (out ++ [sym])
    else if sym = 256 then some (s, out)
    else do
      let base ← lengthBase.get? (sym - 257)
      let eb ← lengthExtra.get? (sym - 257)
      let (extra, s) ← readBits eb s
      let (dsym, s) ← decodeSym distLens s
      let dbase ← distBase.get? dsym
      let deb ← distExtra.get? dsym
      let (dextra, s) ← readBits deb s
      let dist := dbase + dextra
      if dist ≤ out.length then
        inflateCodes litLens distLens fuel s (lzCopy out dist (base + extra))
      else none

/-- Read `n` three-bit code-length-code lengths (dynamic block header). -/
def readCLItems : Nat → BitIn → Option (List Nat × BitIn)
  | 0, s => some ([], s)
  | n + 1, s => do
    let (v, s) ← readBits 3 s
    let (rest, s) ← readCLItems n s
    some (v :: rest, s)

/-- The permuted storage order of the code-length-code lengths. -/
def clOrder : List Nat :=
  [16, 17, 18, 0, 8, 7, 9, 6, 10, 5, 11, 4, 12, 3, 13, 2, 14, 1, 15]

/-- Scatter the transmitted items back to symbol order over the 19
code-length symbols; unsent symbols get length 0. -/
def clLens19 (items : List Nat) : List Nat :=
  (List.range 19).map (fun sym =>
    match (List.zip clOrder items).find? (fun p => p.1 == sym) with
    | some p => p.2
    | none => 0)

/-- Decode the run-length-coded literal/distance code lengths of a
dynamic block: symbols 0..15 are lengths, 16 repeats the previous length
3-6 times, 17 and 18 emit 3-10 and 11-138 zeros.  Overrunning the
announced count is an error, as in zlib. -/
def readCodeLens (cl : List Nat) :
    Nat → Nat → BitIn → List Nat → Option (List Nat × BitIn)
  | 0, _, _, _ => none
  | fuel + 1, need, s, acc =>
    if acc.length ≥ need then
      if acc.length = need then some (acc, s) else none
    else do
      let (sym, s) ← decodeSym cl s
      if sym < 16 then readCodeLens cl fuel need s (acc ++ [sym])
      else if sym = 16 then do
        let last ← acc.getLast?
        let (r, s) ← readBits 2 s
        readCodeLens cl fuel need s (acc ++ List.replicate (3 + r) last)
      else if sym = 17 then do
        let (r, s) ← readBits 3 s
        readCodeLens cl fuel need s (acc ++ List.replicate (3 + r) 0)
      else if sym = 18 then do
        let (r, s) ← readBits 7 s
        readCodeLens cl fuel need s (acc ++ List.replicate (11 + r) 0)
      else none

/-- Read a dynamic block header (RFC 1951 section 3.2.7), producing the
literal/length and distance code-length assignments.  A table with no
end-of-block code is an error, as in zlib. -/
def readDynHeader (fuel : Nat) (s : BitIn) :
    Option ((List Nat × List Nat) × BitIn) := do
  let (hlit, s) ← readBits 5 s
  let (hdist, s) ← readBits 5 s
  let (hclen, s) ← readBits 4 s
  let (items, s) ← readCLItems (hclen + 4) s
  let (lens, s) ← readCodeLens (clLens19 items) fuel (hlit + 257 + hdist + 1) s []
  let lit := lens.take (hlit + 257)
  let dist := lens.drop (hlit + 257)
  if (lit.get? 256).getD 0 = 0 then none else some ((lit, dist), s)

/-- The deflate block loop: read BFINAL and BTYPE, dispatch on the block
kind, stop after the final block.  BTYPE = 3 is reserved and an error. -/
def inflateBlocks : Nat → BitIn → List Nat → Option (List Nat)
  | 0, _, _ => none
  | fuel + 1, s, out => do
    let (bfinal, s) ← readBit s
    let (btype, s) ← readBits 2 s
    let (s, out) ←
      if btype = 0 then storedBlock s out
      else if btype = 1 then inflateCodes fixedLitLens fixedDistLens (fuel + 1) s out
      else if btype = 2 then do
        let (tables, s) ← readDynHeader (fuel + 1) s
        inflateCodes tables.1 tables.2 (fuel + 1) s out
      else none
    if bfinal = 1 then some out else inflateBlocks fuel s out

/-- Raw inflate of a whole byte sequence, RFC 1951 — the effect of
`zlib.decompress(data, wbits=-zlib.MAX_WBITS)`.  The fuel bounds the
number of decoding steps; since every step consumes at least one input
bit, `8 * length + 64` steps can only be exhausted once the input already
is, which is the same truncation error. -/
def rawInflate (data : List Nat) : Option (List Nat) :=
  inflateBlocks (8 * data.length + 64) ⟨data, 0, 0⟩ []

/-- Bits of `code`, most significant first, `len` bits wide — the order
Huffman codes are packed into a deflate stream. -/
def bitsOfCodeMSB (code len : Nat) : List Nat :=
  (List.range len).map (fun i => code / 2 ^ (len - 1 - i) % 2)

/-- The fixed-Huffman code of a literal byte, RFC 1951 section 3.2.6:
bytes 0..143 get the 8-bit codes from 00110000, bytes 144..255 the 9-bit
codes from 110010000. -/
def fixedLitCode (b : Nat) : Nat × Nat :=
  if b < 144 then (48 + b, 8) else (400 + (b - 144), 9)

/-- One byte from up to eight stream bits, least significant bit first. -/
def byteOf (bs : List Nat) : Nat :=
  bs.foldr (fun b acc => b + 2 * acc) 0

/-- Pack a bit stream into bytes, padding the tail with zero bits. -/
def packBits : List Nat → List Nat
  | [] => []
  | b0 :: b1 :: b2 :: b3 :: b4 :: b5 :: b6 :: b7 :: rest =>
    byteOf [b0, b1, b2, b3, b4, b5, b6, b7] :: packBits rest
  | bs => [byteOf bs]

/-- A deflate body for `msg`: one final (BFINAL = 1) fixed-Huffman
(BTYPE = 01, sent low bit first as 1,0) block holding every byte as a
literal, closed by the 7-bit end-of-block code.  This is the body zlib
emits for the empty input; for other inputs zlib may pick different
(equivalent) block encodings, which the claims below never depend on. -/
def deflateFixed (msg : List Nat) : List Nat :=
  packBits ([1, 1, 0] ++
    (msg.map (fun b => bitsOfCodeMSB (fixedLitCode b).1 (fixedLitCode b).2)).flatten ++
    bitsOfCodeMSB 0 7)

/-- Adler-32 running pair (RFC 1950 section 8), modulo 65521. -/
def adler32Pair (msg : List Nat) : Nat × Nat :=
  msg.foldl (fun (p : Nat × Nat) b => ((p.1 + b) % 65521, (p.2 + p.1 + b) % 65521)) (1, 0)

/-- The four big-endian Adler-32 trailer bytes. -/
def adler32Bytes (msg : List Nat) : List Nat :=
  [(adler32Pair msg).2 / 256, (adler32Pair msg).2 % 256,
   (adler32Pair msg).1 / 256, (adler32Pair msg).1 % 256]

/-- `zlib.compress(msg, level=9)` as a stream: the RFC 1950 zlib wrapper
— header bytes 0x78 0xDA, deflate body, Adler-32 trailer. -/
def zlibCompress9 (msg : List Nat) : List Nat :=
  [120, 218] ++ deflateFixed msg ++ adler32Bytes msg

/-- `KeepaClient._compress` (lines 341-344) on the UTF-8 bytes of its
argument. -/
def compressBytes (message : List Nat) : List Nat :=
  zlibCompress9 message

/-- `KeepaClient._decompress` (lines 346-349) on bytes: raw inflate with
no wrapper; `none` is `zlib.error`. -/
def decompressBytes (data : List Nat) : Option (List Nat) :=
  rawInflate data

example : compressBytes [] = [120, 218, 3, 0, 0, 0, 0, 1] := by decide
example : decompressBytes (compressBytes []) = none := by decide
example : rawInflate (deflateFixed []) = some [] := by decide
example : rawInflate (deflateFixed [104, 105]) = some [104, 105] := by decide

/-! ### Association-list lemmas -/

theorem lookupKey_of_not_mem_keys {α : Type} {l : List (String × α)} {k : String}
    (h : k ∉ l.map Prod.fst) : lookupKey l k = none := by
  induction l with
  | nil => rfl
  | cons p rest ih =>
    obtain ⟨k', v⟩ := p
    simp only [List.map_cons, List.mem_cons] at h
    push_neg at h
    simp only [lookupKey]
    rw [if_neg (fun c => h.1 c.symm)]
    exact ih h.2

theorem mem_keys_of_lookupKey {α : Type} {l : List (String × α)} {k : String} {v : α}
    (h : lookupKey l k = some v) : k ∈ l.map Prod.fst := by
  induction l with
  | nil => simp [lookupKey] at h
  | cons p rest ih =>
    simp only [lookupKey] at h
    by_cases hk : p.1 = k
    · simp [hk]
    · simp only [if_neg hk] at h
      simp [ih h]

theorem lookupKey_eraseKey_self {α : Type} {l : List (String × α)} {k : String}
    (hnd : (l.map Prod.fst).Nodup) : lookupKey (eraseKey l k) k = none := by
  induction l with
  | nil => rfl
  | cons p rest ih =>
    simp only [List.map_cons, List.nodup_cons] at hnd
    simp only [eraseKey]
    by_cases hk : p.1 = k
    · simp only [if_pos hk]
      exact lookupKey_of_not_mem_keys (by rw [← hk]; exact hnd.1)
    · simp only [if_neg hk, lookupKey, if_neg hk]
      exact ih hnd.2

theorem lookupKey_eraseKey_ne {α : Type} {l : List (String × α)} {k k' : String}
    (h : k' ≠ k) : lookupKey (eraseKey l k) k' = lookupKey l k' := by
  induction l with
  | nil => rfl
  | cons p rest ih =>
    simp only [eraseKey]
    by_cases hk : p.1 = k
    · simp only [if_pos hk, lookupKey]
      rw [if_neg (by rw [hk]; exact fun c => h c.symm)]
    · simp only [if_neg hk, lookupKey]
      by_cases hk' : p.1 = k'
      · simp [if_pos hk']
      · simp only [if_neg hk']
        exact ih

theorem eraseKey_append_self {α : Type} {l : List (String × α)} {k : String} {v : α}
    (h : lookupKey l k = none) : eraseKey (l ++ [(k, v)]) k = l := by
  induction l with
  | nil => simp [eraseKey]
  | cons p rest ih =>
    obtain ⟨k', v'⟩ := p
    simp only [lookupKey] at h
    by_cases hk : k' = k
    · simp [if_pos hk] at h
    · simp only [if_neg hk] at h
      show eraseKey ((k', v') :: (rest ++ [(k, v)])) k = (k', v') :: rest
      simp only [eraseKey, if_neg hk]
      rw [ih h]

theorem lookupKey_append_right {α : Type} {l : List (String × α)} {k : String} {v : α}
    (h : lookupKey l k = none) : lookupKey (l ++ [(k, v)]) k = some v := by
  induction l with
  | nil => simp [lookupKey]
  | cons p rest ih =>
    simp only [lookupKey] at h
    by_cases hk : p.1 = k
    · simp [if_pos hk] at h
    · simp only [if_neg hk] at h
      simp only [List.cons_append, lookupKey, if_neg hk]
      exact ih h

theorem lookupKey_setKey_self {α : Type} (l : List (String × α)) (k : String) (v : α) :
    lookupKey (setKey l k v) k = some v := by
  induction l with
  | nil => simp [setKey, lookupKey]
  | cons p rest ih =>
    simp only [setKey]
    by_cases hk : p.1 = k
    · simp [if_pos hk, lookupKey]
    · simp only [if_neg hk, lookupKey, if_neg hk]
      exact ih

theorem lookupKey_setKey_ne {α : Type} {l : List (String × α)} {k k' : String} (v : α)
    (h : k' ≠ k) : lookupKey (setKey l k v) k' = lookupKey l k' := by
  induction l with
  | nil =>
    simp only [setKey, lookupKey]
    rw [if_neg (fun c => h c.symm)]
  | cons p rest ih =>
    simp only [setKey]
    by_cases hk : p.1 = k
    · simp only [if_pos hk, lookupKey]
      rw [if_neg (fun c => h c.symm), if_neg (by rw [hk]; exact fun c => h c.symm)]
    · simp only [if_neg hk, lookupKey]
      by_cases hk' : p.1 = k'
      · simp [if_pos hk']
      · simp only [if_neg hk']
        exact ih

/-! ### Length lemmas for the strided slices -/

theorem two_step_induction {α : Type} (P : List α → Prop) (h0 : P [])
    (h1 : ∀ a, P [a]) (h2 : ∀ a b l, P l → P (a :: b :: l)) :
    ∀ l : List α, P l := by
  have key : ∀ (n : Nat) (l : List α), l.length ≤ n → P l := by
    intro n
    induction n with
    | zero =>
      intro l hl
      cases l with
      | nil => exact h0
      | cons a t => simp at hl
    | succ n ih =>
      intro l hl
      match l with
      | [] => exact h0
      | [a] => exact h1 a
      | a :: b :: t =>
        refine h2 a b t (ih t ?_)
        simp only [List.length_cons] at hl
        omega
  exact fun l => key l.length l (Nat.le_refl _)

theorem evens_odds_length {α : Type} (l : List α) :
    (evens l).length = (l.length + 1) / 2 ∧ (odds l).length = l.length / 2 := by
  induction l using two_step_induction with
  | h0 => simp [evens, odds]
  | h1 a => simp [evens, odds]
  | h2 a b t ih =>
    simp only [evens, odds, List.length_cons, ih.1, ih.2]
    omega

theorem convPairs_all_int {tzOffset : Int} :
    ∀ {ps : List (JVal × JVal)}, (∀ p ∈ ps, p.1.isInt = true) →
    ∃ r, convPairs tzOffset ps = Except.ok r ∧ r.length = ps.length := by
  intro ps
  induction ps with
  | nil => exact fun _ => ⟨[], rfl, rfl⟩
  | cons p rest ih =>
    intro h
    obtain ⟨r, hr, hlen⟩ := ih (fun q hq => h q (List.mem_cons_of_mem p hq))
    have hp := h p (List.mem_cons_self p rest)
    obtain ⟨ts, price⟩ := p
    cases ts with
    | int n =>
      refine ⟨(keepa_to_datetime tzOffset n, price) :: r, ?_, by simp [hlen]⟩
      simp only [convPairs, hr]
    | other => simp [JVal.isInt] at hp

/-! ### Characterising successful csv decoding -/

theorem fst_mem_of_mem_zip {α β : Type} :
    ∀ {l1 : List α} {l2 : List β} {p : α × β}, p ∈ List.zip l1 l2 → p.1 ∈ l1 := by
  intro l1
  induction l1 with
  | nil => intro l2 p h; simp [List.zip] at h
  | cons a t ih =>
    intro l2 p h
    cases l2 with
    | nil => simp [List.zip] at h
    | cons b t2 =>
      simp only [List.zip_cons_cons, List.mem_cons] at h
      rcases h with h | h
      · simp [h]
      · exact List.mem_cons_of_mem _ (ih h)

theorem drop_eq_cons_of_get? {α : Type} :
    ∀ (l : List α) (i : Nat) (a : α), l.get? i = some a →
      l.drop i = a :: l.drop (i + 1) := by
  intro l
  induction l with
  | nil => intro i a h; simp at h
  | cons x t ih =>
    intro i a h
    cases i with
    | zero =>
      simp only [List.get?] at h
      cases h
      rfl
    | succ n =>
      simp only [List.get?] at h
      simpa using ih n a h

/-- The timestamp an integer csv element converts to (non-integers never
reach this point on the success path). -/
def tsVal (tzOffset : Int) : JVal → Int
  | JVal.int n => keepa_to_datetime tzOffset n
  | JVal.other => 0

/-- The series a well-formed csv entry decodes to: `null` is the empty
series, an array is consumed two elements at a time as
(timestamp, value) pairs. -/
def entrySeries (tzOffset : Int) : CsvEntry → List (Int × JVal)
  | CsvEntry.null => []
  | CsvEntry.arr l =>
    (List.zip (evens l) (odds l)).map (fun p => (tsVal tzOffset p.1, p.2))
  | CsvEntry.other => []

/-- Well-formedness of one csv entry: `null`, or an array whose
even-position elements (the timestamps) are integers. -/
def entryOk : CsvEntry → Bool
  | CsvEntry.null => true
  | CsvEntry.arr l => (evens l).all JVal.isInt
  | CsvEntry.other => false

theorem convPairs_eq_map {tzOffset : Int} :
    ∀ {ps : List (JVal × JVal)}, (∀ p ∈ ps, p.1.isInt = true) →
      convPairs tzOffset ps = Except.ok (ps.map (fun p => (tsVal tzOffset p.1, p.2))) := by
  intro ps
  induction ps with
  | nil => exact fun _ => rfl
  | cons p rest ih =>
    intro h
    have hp := h p (List.mem_cons_self p rest)
    obtain ⟨ts, price⟩ := p
    cases ts with
    | int n =>
      simp only [convPairs, ih (fun q hq => h q (List.mem_cons_of_mem _ hq))]
      rfl
    | other => simp [JVal.isInt] at hp

theorem decodeCsvFrom_ok (tzOffset : Int) :
    ∀ (csv : List CsvEntry) (i : Nat), i + csv.length ≤ 34 →
      (∀ e ∈ csv, entryOk e = true) →
      decodeCsvFrom tzOffset i csv
        = Except.ok (List.zipWith (fun ty e => (ty, entrySeries tzOffset e))
            ((TYPES.drop i).take csv.length) csv) := by
  intro csv
  induction csv with
  | nil => intro i _ _; simp [decodeCsvFrom]
  | cons e rest ih =>
    intro i hlen hok
    have hi : i < TYPES.length := by
      have : TYPES.length = 34 := by decide
      simp only [List.length_cons] at hlen
      omega
    cases hty : TYPES.get? i with
    | none =>
      rw [List.get?_eq_none] at hty
      omega
    | some ty =>
      have hdrop := drop_eq_cons_of_get? TYPES i ty hty
      have hrest := ih (i + 1) (by simp only [List.length_cons] at hlen; omega)
        (fun x hx => hok x (List.mem_cons_of_mem e hx))
      have hoke := hok e (List.mem_cons_self e rest)
      cases e with
      | null =>
        simp only [decodeCsvFrom, hty, hrest, hdrop, List.length_cons,
          List.take_succ_cons, List.zipWith_cons_cons]
        rfl
      | arr l =>
        have hall : ∀ p ∈ List.zip (evens l) (odds l), p.1.isInt = true := by
          intro p hp
          have := fst_mem_of_mem_zip hp
          simp only [entryOk, List.all_eq_true] at hoke
          exact hoke p.1 this
        simp only [decodeCsvFrom, hty, convPairs_eq_map hall, hrest, hdrop,
          List.length_cons, List.take_succ_cons, List.zipWith_cons_cons]
        rfl
      | other => simp [entryOk] at hoke

/-! ### Claims -/

/-- C3: the claim asserts `to_instant(m)` is always
2011-01-01T00:00:00Z + m × 60 s.  The code intends that (it converts the
result with `utcfromtimestamp`), but `KEEPA_EPOCH` is built from a naive
`datetime(2011, 1, 1).timestamp()`, which CPython interprets in the local
timezone: with a local offset of +1 hour (3600 s east, e.g. CET in
winter), `to_instant(0)` lands on 2010-12-31T23:00:00Z instead of the
fixed epoch; only a UTC process (offset 0) matches the claim, including
both of its cited instances. -/
theorem C3_epoch_depends_on_local_timezone :
    keepa_to_datetime 3600 0 = civilSecs 2010 12 31 23 0 0
    ∧ keepa_to_datetime 3600 0 ≠ civilSecs 2011 1 1 0 0 0
    ∧ keepa_to_datetime 0 0 = civilSecs 2011 1 1 0 0 0
    ∧ keepa_to_datetime 0 1440 = civilSecs 2011 1 2 0 0 0 :=
  ⟨by decide, by decide, by decide, by decide⟩

/-- C2 counterexample: the round trip fails already on the empty string
(UTF-8 bytes `[]`): `_compress` emits the zlib-wrapped stream
78 DA 03 00 00 00 00 01, and `_decompress`, raw-inflating it, misreads
the header byte 0x78 as a non-final stored block whose length check
fails — Python raises `zlib.error` (modelled `none`). -/
theorem C2_roundtrip_counterexample :
    decompressBytes (compressBytes []) = none
    ∧ decompressBytes (compressBytes []) ≠ some [] :=
  ⟨by decide, by decide⟩

/-- C2 amended: `compress` produces a zlib-wrapped stream — fixed header
bytes 0x78 0xDA and an Adler-32 trailer around the deflate body — not a
raw-deflate stream, while `decompress` raw-inflates its whole input; the
two are therefore not inverses (`decompress(compress(s))` raises, e.g.
for the empty string), although raw-inflating just the deflate body
between header and trailer does return the original bytes. -/
theorem C2_compress_is_zlib_wrapped_not_raw :
    (∀ msg : List Nat,
      compressBytes msg = 120 :: 218 :: (deflateFixed msg ++ adler32Bytes msg))
    ∧ decompressBytes (compressBytes []) = none
    ∧ rawInflate (deflateFixed []) = some []
    ∧ rawInflate (deflateFixed [104, 105]) = some [104, 105] :=
  ⟨fun _ => rfl, by decide, by decide, by decide⟩

/-- C9 counterexample: the fixed type table has 34 entries, not 33 as the
claim states. -/
theorem C9_types_table_counterexample : TYPES.length = 34 ∧ ¬ TYPES.length = 33 :=
  ⟨by decide, by decide⟩

/-- C9 amended: a successful response is decoded per csv entry — entry at
index i maps to the i-th name of the fixed 34-entry type table, a null
entry yields an empty series, and a non-null entry is consumed two
integers at a time as (timestamp, value) pairs with the timestamp
converted by `keepa_to_datetime`; in particular (in a UTC process)
`csv[0] = [0, 1999]` yields AMAZON mapped to
`[(2011-01-01T00:00:00Z, 1999)]`. -/
theorem C9_decode_structure (tzOffset : Int) (csv : List CsvEntry)
    (hlen : csv.length ≤ 34) (hok : ∀ e ∈ csv, entryOk e = true) :
    decodeCsv tzOffset csv
      = Except.ok (List.zipWith (fun ty e => (ty, entrySeries tzOffset e))
          (TYPES.take csv.length) csv)
    ∧ decodeCsv 0 [CsvEntry.arr [JVal.int 0, JVal.int 1999]]
      = Except.ok [("AMAZON", [(civilSecs 2011 1 1 0 0 0, JVal.int 1999)])] := by
  constructor
  · have h := decodeCsvFrom_ok tzOffset csv 0 (by omega) hok
    simpa [decodeCsv] using h
  · decide

/-- C9 witness: the amended statement applied at the claim's concrete
response, a UTC process decoding `csv[0] = [0, 1999]`. -/
theorem C9_decode_structure_witness :
    decodeCsv 0 [CsvEntry.arr [JVal.int 0, JVal.int 1999]]
      = Except.ok (List.zipWith (fun ty e => (ty, entrySeries 0 e))
          (TYPES.take (List.length [CsvEntry.arr [JVal.int 0, JVal.int 1999]]))
          [CsvEntry.arr [JVal.int 0, JVal.int 1999]])
    ∧ decodeCsv 0 [CsvEntry.arr [JVal.int 0, JVal.int 1999]]
      = Except.ok [("AMAZON", [(civilSecs 2011 1 1 0 0 0, JVal.int 1999)])] :=
  C9_decode_structure 0 [CsvEntry.arr [JVal.int 0, JVal.int 1999]]
    (by decide) (by decide)

/-- C10: a non-null csv entry of odd length 2n+1 decodes without failing:
the trailing unpaired integer is silently dropped by
`zip(csv_entry[::2], csv_entry[1::2])` and exactly n (timestamp, value)
pairs come out. -/
theorem C10_odd_entry_drops_last (tzOffset : Int) (l : List JVal) (n : Nat)
    (hlen : l.length = 2 * n + 1) (hok : (evens l).all JVal.isInt = true) :
    ∃ pairs, decodeCsv tzOffset [CsvEntry.arr l] = Except.ok [("AMAZON", pairs)]
      ∧ pairs.length = n := by
  have hall : ∀ p ∈ List.zip (evens l) (odds l), p.1.isInt = true := by
    intro p hp
    rw [List.all_eq_true] at hok
    exact hok p.1 (fst_mem_of_mem_zip hp)
  obtain ⟨r, hr, hrlen⟩ := convPairs_all_int hall
  refine ⟨r, ?_, ?_⟩
  · have hstep : decodeCsv tzOffset [CsvEntry.arr l]
        = match convPairs tzOffset (List.zip (evens l) (odds l)) with
          | Except.error er => Except.error er
          | Except.ok pairs => Except.ok [("AMAZON", pairs)] := rfl
    rw [hstep, hr]
  · have hz : (List.zip (evens l) (odds l)).length = n := by
      have he := evens_odds_length l
      rw [List.length_zip, he.1, he.2, hlen]
      omega
    rw [hrlen, hz]

/-- C10 witness: the odd-length entry `[0, 1999, 5]` decodes to exactly
one pair. -/
theorem C10_odd_entry_drops_last_witness :
    ∃ pairs, decodeCsv 0 [CsvEntry.arr [JVal.int 0, JVal.int 1999, JVal.int 5]]
      = Except.ok [("AMAZON", pairs)] ∧ pairs.length = 1 :=
  C10_odd_entry_drops_last 0 [JVal.int 0, JVal.int 1999, JVal.int 5] 1
    (by decide) (by decide)

/-- Whether a completed request resolved with `KeepaConnectionError`. -/
def resolvedConn : Except PyErr PriceData → Bool
  | Except.error e => PyErr.isConn e
  | Except.ok _ => false

/-- C8: calling `get_historical_prices` while not connected (the running
flag cleared or no websocket handle, line 217) raises
`KeepaConnectionError` immediately, with the client state — in
particular the correlation table — untouched: nothing was built,
registered, or sent. -/
theorem C8_not_connected_fails_immediately (st : ClientState) (asin : String)
    (h : st.running = false ∨ st.wsSome = false) :
    ghpCheckAndRegister st asin
      = (st, some (PyErr.keepaConnection "Not connected to WebSocket server")) := by
  simp only [ghpCheckAndRegister, if_pos h]

/-- C8 witness: the spec's end-to-end case — key "B0001" requested while
disconnected. -/
theorem C8_not_connected_fails_immediately_witness :
    ghpCheckAndRegister ⟨false, false, [], []⟩ "B0001"
      = (⟨false, false, [], []⟩,
         some (PyErr.keepaConnection "Not connected to WebSocket server")) :=
  C8_not_connected_fails_immediately ⟨false, false, [], []⟩ "B0001" (Or.inl rfl)

/-- C7: when the send fails after a successful registration, the key is
unregistered — the whole client state is exactly what it was before the
call — and the call raises `KeepaConnectionError` (lines 231-237). -/
theorem C7_send_failure_restores_state (st : ClientState) (asin : String)
    (hr : st.running = true) (hw : st.wsSome = true)
    (habs : lookupKey st.pending asin = none) :
    (ghpCheckAndRegister st asin).2 = none
    ∧ ghpSendFailed (ghpCheckAndRegister st asin).1 asin
        = (st, PyErr.keepaConnection "Failed to send request") := by
  have hcond : ¬(st.running = false ∨ st.wsSome = false) := by simp [hr, hw]
  have hdup : ¬((lookupKey st.pending asin).isSome = true) := by simp [habs]
  constructor
  · simp only [ghpCheckAndRegister, if_neg hcond, if_neg hdup]
  · simp only [ghpCheckAndRegister, if_neg hcond, if_neg hdup, ghpSendFailed]
    rw [eraseKey_append_self habs]

/-- C7 witness: a fresh key on a connected client with one unrelated
pending request. -/
theorem C7_send_failure_restores_state_witness :
    (ghpCheckAndRegister ⟨true, true, [], [("B0009", ⟨false, none⟩)]⟩ "B0001").2 = none
    ∧ ghpSendFailed
        (ghpCheckAndRegister ⟨true, true, [], [("B0009", ⟨false, none⟩)]⟩ "B0001").1 "B0001"
      = (⟨true, true, [], [("B0009", ⟨false, none⟩)]⟩,
         PyErr.keepaConnection "Failed to send request") :=
  C7_send_failure_restores_state ⟨true, true, [], [("B0009", ⟨false, none⟩)]⟩ "B0001"
    rfl rfl (by decide)

/-- C5: on a connected client, registering a key already outstanding
raises the duplicate-request error (`ValueError` in this code, line 226)
and leaves the state untouched; once the first request for the key has
resolved — completion (response), timeout, or reconnect cancellation, all
of which remove the key — registering it again succeeds. -/
theorem C5_duplicate_then_reregister (st : ClientState) (asin : String)
    (hr : st.running = true) (hw : st.wsSome = true)
    (hnd : (st.pending.map Prod.fst).Nodup) :
    ((lookupKey st.pending asin).isSome = true →
      ghpCheckAndRegister st asin
        = (st, some (PyErr.valueError ("Request already pending for ASIN: " ++ asin))))
    ∧ (ghpCheckAndRegister (ghpComplete st asin).1 asin).2 = none
    ∧ (ghpCheckAndRegister (ghpTimeout st asin).1 asin).2 = none
    ∧ (ghpCheckAndRegister (reconnectClear st).1 asin).2 = none := by
  have hcond : ¬(st.running = false ∨ st.wsSome = false) := by simp [hr, hw]
  refine ⟨fun hdup => ?_, ?_, ?_, ?_⟩
  · simp only [ghpCheckAndRegister, if_neg hcond, if_pos hdup]
  · simp only [ghpComplete, ghpCheckAndRegister, if_neg hcond,
      lookupKey_eraseKey_self hnd, Option.isSome_none, Bool.false_eq_true,
      if_neg, ite_eq_right_iff]
    simp
  · simp only [ghpTimeout, ghpCheckAndRegister, if_neg hcond,
      lookupKey_eraseKey_self hnd]
    simp
  · simp only [reconnectClear, ghpCheckAndRegister, if_neg hcond]
    simp [lookupKey]

/-- C5 witness: "B0001" is pending on a connected client; registering it
again fails with the duplicate error, and after completion, timeout, or
reconnect it registers cleanly. -/
theorem C5_duplicate_then_reregister_witness :
    ((lookupKey [("B0001", PendingEntry.mk false none)] "B0001").isSome = true →
      ghpCheckAndRegister ⟨true, true, [], [("B0001", ⟨false, none⟩)]⟩ "B0001"
        = (⟨true, true, [], [("B0001", ⟨false, none⟩)]⟩,
           some (PyErr.valueError ("Request already pending for ASIN: " ++ "B0001"))))
    ∧ (ghpCheckAndRegister
        (ghpComplete ⟨true, true, [], [("B0001", ⟨false, none⟩)]⟩ "B0001").1 "B0001").2 = none
    ∧ (ghpCheckAndRegister
        (ghpTimeout ⟨true, true, [], [("B0001", ⟨false, none⟩)]⟩ "B0001").1 "B0001").2 = none
    ∧ (ghpCheckAndRegister
        (reconnectClear ⟨true, true, [], [("B0001", ⟨false, none⟩)]⟩).1 "B0001").2 = none :=
  C5_duplicate_then_reregister ⟨true, true, [], [("B0001", ⟨false, none⟩)]⟩ "B0001"
    rfl rfl (by decide)

/-- C6: on timeout the key is removed from the correlation table and the
call raises `KeepaTimeoutError` (lines 239-245), leaving every other
pending entry and the product store untouched; any subsequent response —
the late one for this key, or any response whose key has no pending
entry — is discarded by `_on_message` without changing the state
(line 295). -/
theorem C6_timeout_then_late_response_discarded (tzOffset : Int)
    (st : ClientState) (asin : String)
    (hnd : (st.pending.map Prod.fst).Nodup) :
    (ghpTimeout st asin).2 = PyErr.keepaTimeout ("No response for ASIN: " ++ asin)
    ∧ lookupKey (ghpTimeout st asin).1.pending asin = none
    ∧ (∀ k, k ≠ asin →
        lookupKey (ghpTimeout st asin).1.pending k = lookupKey st.pending k)
    ∧ (ghpTimeout st asin).1.products = st.products
    ∧ (∀ (p : KProduct) (rest : List KProduct),
        lookupKey (ghpTimeout st asin).1.pending p.asin = none →
        onMessageParsed tzOffset (ghpTimeout st asin).1 (WsData.products (p :: rest))
          = (ghpTimeout st asin).1) := by
  refine ⟨rfl, lookupKey_eraseKey_self hnd, fun k hk => lookupKey_eraseKey_ne hk,
    rfl, fun p rest hnone => ?_⟩
  simp only [onMessageParsed, hnone]

/-- C6 witness: "B0003" times out while "B0004" stays pending; the late
response for "B0003" is dropped without touching the state. -/
theorem C6_timeout_then_late_response_discarded_witness :
    (ghpTimeout ⟨true, true, [], [("B0003", ⟨false, none⟩), ("B0004", ⟨false, none⟩)]⟩
        "B0003").2 = PyErr.keepaTimeout ("No response for ASIN: " ++ "B0003")
    ∧ lookupKey (ghpTimeout ⟨true, true, [],
        [("B0003", ⟨false, none⟩), ("B0004", ⟨false, none⟩)]⟩ "B0003").1.pending "B0003"
      = none
    ∧ lookupKey (ghpTimeout ⟨true, true, [],
        [("B0003", ⟨false, none⟩), ("B0004", ⟨false, none⟩)]⟩ "B0003").1.pending "B0004"
      = some ⟨false, none⟩
    ∧ (ghpTimeout ⟨true, true, [],
        [("B0003", ⟨false, none⟩), ("B0004", ⟨false, none⟩)]⟩ "B0003").1.products = []
    ∧ onMessageParsed 0
        (ghpTimeout ⟨true, true, [],
          [("B0003", ⟨false, none⟩), ("B0004", ⟨false, none⟩)]⟩ "B0003").1
        (WsData.products [⟨"B0003", [CsvEntry.arr [JVal.int 0, JVal.int 1999]]⟩])
      = (ghpTimeout ⟨true, true, [],
          [("B0003", ⟨false, none⟩), ("B0004", ⟨false, none⟩)]⟩ "B0003").1 := by
  have h := C6_timeout_then_late_response_discarded 0
    ⟨true, true, [], [("B0003", ⟨false, none⟩), ("B0004", ⟨false, none⟩)]⟩
    "B0003" (by decide)
  exact ⟨h.1, h.2.1, h.2.2.1 "B0004" (by decide), h.2.2.2.1,
    h.2.2.2.2 ⟨"B0003", [CsvEntry.arr [JVal.int 0, JVal.int 1999]]⟩ [] h.2.1⟩

/-- C1 counterexample: with "B0001" pending, `_reconnect` signals its
event and clears the table, but stores no error; the woken
`get_historical_prices` call then finds neither a pending entry nor
product data and raises `KeepaAPIError` ("Empty product data"), which is
not the ConnectionError the claim requires. -/
theorem C1_reconnect_error_kind_counterexample :
    (ghpComplete (reconnectClear
        ⟨true, true, [], [("B0001", ⟨false, none⟩)]⟩).1 "B0001").2
      = Except.error (PyErr.keepaAPI "Empty product data received for ASIN: B0001")
    ∧ resolvedConn (ghpComplete (reconnectClear
        ⟨true, true, [], [("B0001", ⟨false, none⟩)]⟩).1 "B0001").2 = false :=
  ⟨by decide, by decide⟩

/-- C1 amended: whenever the background reconnect path runs, every
request pending at that moment has its completion event signalled and
the correlation table is left empty; each such request's
`get_historical_prices` call then resolves with `KeepaAPIError` ("Empty
product data received"), not with a ConnectionError. -/
theorem C1_reconnect_resolves_all_pending (st : ClientState) (asin : String)
    (entry : PendingEntry) (h : lookupKey st.pending asin = some entry) :
    (reconnectClear st).1.pending = []
    ∧ asin ∈ (reconnectClear st).2
    ∧ (ghpComplete (reconnectClear st).1 asin).2
        = Except.error (PyErr.keepaAPI ("Empty product data received for ASIN: " ++ asin))
    ∧ resolvedConn (ghpComplete (reconnectClear st).1 asin).2 = false := by
  refine ⟨rfl, ?_, rfl, rfl⟩
  have := mem_keys_of_lookupKey h
  simpa [reconnectClear] using this

/-- C1 witness: the amended statement at a client with the single pending
key "B0001". -/
theorem C1_reconnect_resolves_all_pending_witness :
    (reconnectClear ⟨true, true, [], [("B0001", ⟨false, none⟩)]⟩).1.pending = []
    ∧ "B0001" ∈ (reconnectClear ⟨true, true, [], [("B0001", ⟨false, none⟩)]⟩).2
    ∧ (ghpComplete (reconnectClear
        ⟨true, true, [], [("B0001", ⟨false, none⟩)]⟩).1 "B0001").2
      = Except.error (PyErr.keepaAPI ("Empty product data received for ASIN: " ++ "B0001"))
    ∧ resolvedConn (ghpComplete (reconnectClear
        ⟨true, true, [], [("B0001", ⟨false, none⟩)]⟩).1 "B0001").2 = false :=
  C1_reconnect_resolves_all_pending ⟨true, true, [], [("B0001", ⟨false, none⟩)]⟩
    "B0001" ⟨false, none⟩ rfl

/-- C4 counterexample: a malformed csv entry (a non-list value) makes the
decode raise `TypeError`; `_on_message` routes exactly that raw exception
— not a `KeepaAPIError`, the code's ProtocolError — into the pending
entry for the key and signals it. -/
theorem C4_raw_exception_counterexample :
    decodeCsv 0 [CsvEntry.other]
      = Except.error (PyErr.typeErr "object is not subscriptable")
    ∧ onMessageParsed 0 ⟨true, true, [], [("B0002", ⟨false, none⟩)]⟩
        (WsData.products [⟨"B0002", [CsvEntry.other]⟩])
      = ⟨true, true, [],
         [("B0002", ⟨true, some (PyErr.typeErr "object is not subscriptable")⟩)]⟩
    ∧ PyErr.isAPI (PyErr.typeErr "object is not subscriptable") = false :=
  ⟨by decide, by decide, rfl⟩

/-- C4 amended: any failure while decoding one product's csv never
crashes or terminates the receive loop (`onMessageParsed` returns a state
on every input): the raised exception itself — a `TypeError`/`KeyError`,
not a `KeepaAPIError` — is stored in the pending request for that
product's key when one exists, with that entry signalled, the product
store unchanged, and every other pending entry untouched; with no
pending entry for the key, the failure is logged and the state is
unchanged. -/
theorem C4_decode_error_routed_or_dropped (tzOffset : Int) (st : ClientState)
    (p : KProduct) (rest : List KProduct) (e : PyErr)
    (hdec : decodeCsv tzOffset p.csv = Except.error e) :
    (lookupKey st.pending p.asin = none →
      onMessageParsed tzOffset st (WsData.products (p :: rest)) = st)
    ∧ (∀ entry, lookupKey st.pending p.asin = some entry →
        (onMessageParsed tzOffset st (WsData.products (p :: rest))).products
          = st.products
        ∧ lookupKey (onMessageParsed tzOffset st
            (WsData.products (p :: rest))).pending p.asin
          = some { entry with event := true, error := some e }
        ∧ ∀ k, k ≠ p.asin →
            lookupKey (onMessageParsed tzOffset st
              (WsData.products (p :: rest))).pending k
            = lookupKey st.pending k) := by
  constructor
  · intro hnone
    simp only [onMessageParsed, hnone]
  · intro entry hsome
    refine ⟨?_, ?_, fun k hk => ?_⟩
    · simp only [onMessageParsed, hsome, hdec]
    · simp only [onMessageParsed, hsome, hdec]
      exact lookupKey_setKey_self _ _ _
    · simp only [onMessageParsed, hsome, hdec]
      exact lookupKey_setKey_ne _ hk

/-- C4 witness: the amended statement at a client with pending keys
"B0002" and "B0005" receiving a malformed response for "B0002". -/
theorem C4_decode_error_routed_or_dropped_witness :
    (onMessageParsed 0
        ⟨true, true, [], [("B0002", ⟨false, none⟩), ("B0005", ⟨false, none⟩)]⟩
        (WsData.products [⟨"B0002", [CsvEntry.other]⟩])).products = []
    ∧ lookupKey (onMessageParsed 0
        ⟨true, true, [], [("B0002", ⟨false, none⟩), ("B0005", ⟨false, none⟩)]⟩
        (WsData.products [⟨"B0002", [CsvEntry.other]⟩])).pending "B0002"
      = some ⟨true, some (PyErr.typeErr "object is not subscriptable")⟩
    ∧ lookupKey (onMessageParsed 0
        ⟨true, true, [], [("B0002", ⟨false, none⟩), ("B0005", ⟨false, none⟩)]⟩
        (WsData.products [⟨"B0002", [CsvEntry.other]⟩])).pending "B0005"
      = some ⟨false, none⟩ := by
  have h := C4_decode_error_routed_or_dropped 0
    ⟨true, true, [], [("B0002", ⟨false, none⟩), ("B0005", ⟨false, none⟩)]⟩
    ⟨"B0002", [CsvEntry.other]⟩ []
    (PyErr.typeErr "object is not subscriptable") (by decide)
  have h2 := h.2 ⟨false, none⟩ (by decide)
  exact ⟨h2.1, h2.2.1, h2.2.2 "B0005" (by decide)⟩
